import Mathlib

/-!
Verification of the sample-acquisition and word-assembly state machine of the
IOT Sign Language Gloves mobile app.

The embedding below is a shallow model of the TypeScript source:

* `normalizeSample`, `DEFAULT_BASELINES`, `DEFAULT_MAXBENDS` are taken from
  the normalization utility module (src/utils/normalization).
* `pushWindow`, `handleSensorDataRolling`, `rollingOnComplete` model the
  rolling-window branch of `handleSensorData` in the current App component,
  including the in-flight flag `isPredictingRef` and the `.finally` handler
  that clears it on every completion path.
* `makePrediction` models the state mutations performed by the async
  `makePrediction` callback of the current App component on either a
  successful classifier response or a failure caught by its `catch` block.
  JavaScript numbers are modelled as rationals; speech, haptics and debug
  logging side effects are not part of the state.
* `pressSingleLetterMode` / `pressContinuousMode` model the two mode-selector
  `onPress` handlers; `predictionViewClearWord`, `quickDemoClearWord`,
  `quickDemoResetWordFinalization` model the word-clearing callbacks handed
  to PredictionView and QuickDemo; `quickDemoTimeout` models the safety
  timeout in QuickDemo.simulateWord; `idleTimerFire` models the body of the
  idle-finalization timer callback.
* `legacyCommitBranch` models the word-commit condition of the legacy App
  variant kept in the repository, whose QuickDemo branch commits every
  prediction regardless of confidence.
-/

/-- A sensor sample: the app passes 5-channel numeric vectors around. -/
abbrev Sample := List ℚ

/-! ## Sample normalization (src/utils/normalization) -/

/-- Default resting (straight) calibration values, thumb to pinky. -/
def DEFAULT_BASELINES : List ℚ := [2700, 1650, 1850, 2110, 2125]

/-- Default fully-bent calibration values, thumb to pinky. -/
def DEFAULT_MAXBENDS : List ℚ := [2200, 1300, 1480, 1640, 1720]

/-- Per-channel normalization: degenerate range gives 0, otherwise the value
is clamped to the unit interval. Mirrors the arrow body inside
`normalizeSample`. -/
def normalizeChannel (base bent value : ℚ) : ℚ :=
  let range := base - bent
  if |range| < 1 then 0
  else max 0 (min 1 ((base - value) / range))

/-- Normalize one raw sample channel-by-channel against the calibration
vectors, as `raw.map((value, i) => ...)` does for equal-length vectors. -/
def normalizeSample : List ℚ → List ℚ → List ℚ → List ℚ
  | value :: vs, base :: bs, bent :: ms =>
      normalizeChannel base bent value :: normalizeSample vs bs ms
  | _, _, _ => []

/-! ## Rolling window and in-flight flag (handleSensorData, current App) -/

/-- Window capacity: 50 samples at 50 Hz, one second of data. -/
def WINDOW_SIZE : Nat := 50

/-- State touched by the rolling branch of `handleSensorData`: the mutable
window `rollingBufferRef` and the in-flight flag `isPredictingRef`. -/
structure RollState where
  rollingBuffer : List Sample
  isPredicting : Bool
deriving DecidableEq, Repr

/-- Push one sample at the end of the window, then drop the oldest sample
when the length exceeds `WINDOW_SIZE` (push followed by shift). -/
def pushWindow (buf : List Sample) (s : Sample) : List Sample :=
  let b := buf ++ [s]
  if WINDOW_SIZE < b.length then b.tail else b

/-- One sample arrival in rolling mode. Returns the new state and whether a
classification was dispatched: dispatch happens only when the window is full
and no call is in flight, and the flag is set at dispatch time. -/
def handleSensorDataRolling (st : RollState) (s : Sample) : RollState × Bool :=
  let buf := pushWindow st.rollingBuffer s
  if WINDOW_SIZE ≤ buf.length ∧ st.isPredicting = false then
    ({ rollingBuffer := buf, isPredicting := true }, true)
  else
    ({ rollingBuffer := buf, isPredicting := st.isPredicting }, false)

/-- The `.finally` continuation attached to the dispatched classification:
it runs on success and on failure alike and clears the in-flight flag,
leaving the window untouched. -/
def rollingOnComplete (st : RollState) : RollState :=
  { st with isPredicting := false }

/-- Number of classifications dispatched while folding a sample stream
through `handleSensorDataRolling` with no interleaved completion. -/
def dispatchCount (st : RollState) : List Sample → Nat
  | [] => 0
  | s :: ss =>
      let step := handleSensorDataRolling st s
      (if step.2 then 1 else 0) + dispatchCount step.1 ss

/-! ## Classifier responses and the App state record -/

/-- A successful classifier response, as consumed by `makePrediction`. -/
structure Resp where
  letter : String
  confidence : ℚ
  timestamp : ℤ
deriving DecidableEq, Repr

/-- One entry of the bounded prediction history. -/
structure HistEntry where
  letter : String
  confidence : ℚ
  timestamp : ℤ
deriving DecidableEq, Repr

/-- The stable-prediction tracker `stablePredRef`. -/
structure Tracker where
  letter : String
  count : Nat
deriving DecidableEq, Repr

/-- The state variables of the current App component that `makePrediction`,
the clear-word callbacks and the mode buttons read or write. The demo
callback slot is modelled by whether it is occupied plus a ghost counter of
how many times the registered callback has been invoked. -/
structure AppSt where
  currentPrediction : Option Resp
  predictionError : Option String
  isAnalyzing : Bool
  predictionHistory : List HistEntry
  detectedLetters : List String
  isWordFinalized : Bool
  stablePred : Tracker
  letterUsed : Bool
  quickDemoSlot : Bool
  quickDemoInvoked : Nat
  isContinuousMode : Bool
  minConfidence : ℚ
deriving DecidableEq, Repr

/-- Initial values of the modelled state variables. -/
def initState : AppSt where
  currentPrediction := none
  predictionError := none
  isAnalyzing := false
  predictionHistory := []
  detectedLetters := []
  isWordFinalized := false
  stablePred := ⟨"", 0⟩
  letterUsed := false
  quickDemoSlot := false
  quickDemoInvoked := 0
  isContinuousMode := false
  minConfidence := 3 / 5

/-- Consecutive identical predictions needed before a letter is committed in
rolling mode. -/
def STABLE_NEEDED : Nat := 4

/-- State mutations of one `makePrediction` run on a settled classifier
result. On success: record the prediction and history entry, then run the
continuous-mode word building (QuickDemo branch gated by the confidence
threshold; rolling branch through the stable tracker), then notify and clear
the demo callback slot; on failure, the catch block records the error
message only. The finally block clears `isAnalyzing` on both paths. The
commit branches write `isWordFinalized := false`: the source resets the flag
only when it was set, which yields the same value in both cases. -/
def makePrediction (st : AppSt) (result : Except String Resp) : AppSt :=
  match result with
  | Except.error msg =>
      { st with predictionError := some msg, isAnalyzing := false }
  | Except.ok r =>
      let st1 : AppSt :=
        { st with
            currentPrediction := some r
            predictionError := none
            predictionHistory :=
              ⟨r.letter, r.confidence, r.timestamp⟩ :: st.predictionHistory.take 19 }
      let st2 : AppSt :=
        if st.isContinuousMode then
          if st.quickDemoSlot then
            if st.minConfidence ≤ r.confidence then
              { st1 with
                  detectedLetters :=
                    (if st.isWordFinalized then [] else st.detectedLetters) ++ [r.letter]
                  isWordFinalized := false }
            else st1
          else
            if r.letter = st.stablePred.letter then
              if STABLE_NEEDED ≤ st.stablePred.count + 1 ∧ st.letterUsed = false
                  ∧ st.minConfidence ≤ r.confidence then
                { st1 with
                    stablePred := ⟨st.stablePred.letter, st.stablePred.count + 1⟩
                    letterUsed := true
                    detectedLetters :=
                      (if st.isWordFinalized then [] else st.detectedLetters) ++ [r.letter]
                    isWordFinalized := false }
              else
                { st1 with stablePred := ⟨st.stablePred.letter, st.stablePred.count + 1⟩ }
            else
              { st1 with stablePred := ⟨r.letter, 1⟩, letterUsed := false }
        else st1
      let st3 : AppSt :=
        if st.quickDemoSlot then
          { st2 with quickDemoSlot := false, quickDemoInvoked := st2.quickDemoInvoked + 1 }
        else st2
      { st3 with isAnalyzing := false }

/-- Fold a stream of successful classifier responses through
`makePrediction`. -/
def runPreds (st : AppSt) (ps : List Resp) : AppSt :=
  ps.foldl (fun s p => makePrediction s (Except.ok p)) st

/-! ## Mode selector buttons (current App mode-selector onPress handlers) -/

/-- State variables visible to the mode buttons and to the reset claims. -/
structure ModeSt where
  isContinuousMode : Bool
  isSimulating : Bool
  isCollecting : Bool
  sensorBuffer : List Sample
  rollingBuffer : List Sample
  isPredicting : Bool
  stablePred : Tracker
  letterUsed : Bool
  detectedLetters : List String
  isWordFinalized : Bool
deriving DecidableEq, Repr

/-- The Single Letter mode button: leaves continuous mode, stops the
simulator, stops collecting and empties the batch sample buffer. -/
def pressSingleLetterMode (st : ModeSt) : ModeSt :=
  { st with
      isContinuousMode := false
      isSimulating := false
      isCollecting := false
      sensorBuffer := [] }

/-- The Continuous Words mode button: enters continuous mode, empties the
batch sample buffer and starts collecting. -/
def pressContinuousMode (st : ModeSt) : ModeSt :=
  { st with
      isContinuousMode := true
      sensorBuffer := []
      isCollecting := true }

/-! ## Word clearing callbacks (PredictionView and QuickDemo props) -/

/-- The clear-word callback handed to PredictionView: empties the letters,
drops the current prediction and resets the finalized flag. -/
def predictionViewClearWord (st : AppSt) : AppSt :=
  { st with
      detectedLetters := []
      currentPrediction := none
      isWordFinalized := false }

/-- The clear-word callback handed to QuickDemo: empties the letters and
drops the current prediction. -/
def quickDemoClearWord (st : AppSt) : AppSt :=
  { st with detectedLetters := [], currentPrediction := none }

/-- The reset-finalization callback handed to QuickDemo. -/
def quickDemoResetWordFinalization (st : AppSt) : AppSt :=
  { st with isWordFinalized := false }

/-- The pre-run clear performed by QuickDemo.simulateWord before a new demo:
it invokes the clear-word callback and then the reset-finalization
callback. -/
def quickDemoPreRunClear (st : AppSt) : AppSt :=
  quickDemoResetWordFinalization (quickDemoClearWord st)

/-- The 10-second safety timeout armed by QuickDemo.simulateWord for each
letter: when the callback slot is still occupied it clears the slot and
moves on without invoking the registered callback. -/
def quickDemoTimeout (st : AppSt) : AppSt :=
  if st.quickDemoSlot then { st with quickDemoSlot := false } else st

/-! ## Idle finalization timer (current App idle-detection effect) -/

/-- Quiet period after which an armed idle timer finalizes the word. -/
def IDLE_THRESHOLD_MS : ℤ := 2000

/-- Body of the idle timer callback. Inputs: milliseconds elapsed since the
last sample at fire time, whether the demo callback slot is occupied, the
letters of the word and the finalized flag. Returns the new finalized flag
and the word spoken aloud, if any. -/
def idleTimerFire (elapsed : ℤ) (demoActive : Bool) (letters : List String)
    (finalized : Bool) : Bool × Option String :=
  if IDLE_THRESHOLD_MS ≤ elapsed ∧ demoActive = false ∧ finalized = false then
    let finalWord := String.join letters
    if 0 < finalWord.length then (true, some finalWord)
    else (finalized, none)
  else (finalized, none)

/-! ## Legacy App variant (kept in the repository alongside the current one) -/

/-- Word-commit branch of `makePrediction` in the legacy App variant: in
continuous mode a letter is appended whenever the demo is running or the
confidence reaches the threshold. -/
def legacyCommitBranch (letters : List String) (continuous demoRunning : Bool)
    (conf minConf : ℚ) (letter : String) : List String :=
  if continuous = true ∧ (demoRunning = true ∨ minConf ≤ conf) then
    letters ++ [letter]
  else letters

/-! ## Helper lemmas -/

theorem pushWindow_eq (buf : List Sample) (s : Sample) :
    pushWindow buf s =
      if WINDOW_SIZE < buf.length + 1 then (buf ++ [s]).tail else buf ++ [s] := by
  simp [pushWindow]

theorem foldl_pushWindow_append (l : List Sample) (a : Sample) :
    (l ++ [a]).foldl pushWindow [] = pushWindow (l.foldl pushWindow []) a := by
  simp [List.foldl_append]

/-! ## Claim theorems -/

/-- Claim C9: each normalized channel is 0 on a degenerate calibration range
and otherwise the clamped affine rescaling of the raw value; the default
baselines normalize to the all-zero vector and the default bent-max values
normalize to the all-one vector. -/
theorem normalizeSample_spec :
    (∀ base bent value : ℚ,
        (|base - bent| < 1 → normalizeChannel base bent value = 0) ∧
        (¬|base - bent| < 1 →
          normalizeChannel base bent value =
            max 0 (min 1 ((base - value) / (base - bent))))) ∧
    (∀ v0 v1 v2 v3 v4 b0 b1 b2 b3 b4 m0 m1 m2 m3 m4 : ℚ,
        normalizeSample [v0, v1, v2, v3, v4] [b0, b1, b2, b3, b4] [m0, m1, m2, m3, m4] =
          [normalizeChannel b0 m0 v0, normalizeChannel b1 m1 v1, normalizeChannel b2 m2 v2,
           normalizeChannel b3 m3 v3, normalizeChannel b4 m4 v4]) ∧
    normalizeSample DEFAULT_BASELINES DEFAULT_BASELINES DEFAULT_MAXBENDS = [0, 0, 0, 0, 0] ∧
    normalizeSample DEFAULT_MAXBENDS DEFAULT_BASELINES DEFAULT_MAXBENDS = [1, 1, 1, 1, 1] := by
  refine ⟨fun base bent value => ⟨fun h => ?_, fun h => ?_⟩,
    fun _ _ _ _ _ _ _ _ _ _ _ _ _ _ _ => rfl,
    by norm_num [normalizeSample, normalizeChannel, DEFAULT_BASELINES, DEFAULT_MAXBENDS],
    by norm_num [normalizeSample, normalizeChannel, DEFAULT_BASELINES, DEFAULT_MAXBENDS]⟩
  · simp [normalizeChannel, h]
  · simp [normalizeChannel, h]

/-- Witness for C9 at concrete inputs: a degenerate range yields 0 and a
regular range yields the clamped rescaling. -/
theorem normalizeSample_spec_witness :
    normalizeChannel 2700 2700 123 = 0 ∧
    normalizeChannel 2700 2200 2700 = max 0 (min 1 ((2700 - 2700) / (2700 - 2200))) :=
  ⟨(normalizeSample_spec.1 2700 2700 123).1 (by norm_num),
   (normalizeSample_spec.1 2700 2200 2700).2 (by norm_num)⟩

/-- Claim C10: both word-clearing paths, the PredictionView clear button and
the QuickDemo pre-run clear, also reset the current prediction to none and
the finalized flag to false. -/
theorem clear_word_resets_prediction :
    ∀ st : AppSt,
      (predictionViewClearWord st).detectedLetters = [] ∧
      (predictionViewClearWord st).currentPrediction = none ∧
      (predictionViewClearWord st).isWordFinalized = false ∧
      (quickDemoPreRunClear st).detectedLetters = [] ∧
      (quickDemoPreRunClear st).currentPrediction = none ∧
      (quickDemoPreRunClear st).isWordFinalized = false :=
  fun _ => ⟨rfl, rfl, rfl, rfl, rfl, rfl⟩

/-- Counterexample to claim C7: toggling from Continuous to SingleShot and
back leaves the consensus tracker at letter A with count 3, the consumed
flag set, the rolling window non-empty and the in-flight flag set, so the
mode switch does not clear the consensus-tracker state. -/
theorem mode_switch_reset_cex :
    (pressContinuousMode (pressSingleLetterMode
        ⟨true, true, true, [[1]], [[1]], true, ⟨"A", 3⟩, true, ["A"], false⟩)).stablePred =
      (⟨"A", 3⟩ : Tracker) ∧
    (pressContinuousMode (pressSingleLetterMode
        ⟨true, true, true, [[1]], [[1]], true, ⟨"A", 3⟩, true, ["A"], false⟩)).letterUsed = true ∧
    (pressContinuousMode (pressSingleLetterMode
        ⟨true, true, true, [[1]], [[1]], true, ⟨"A", 3⟩, true, ["A"], false⟩)).rollingBuffer =
      [[1]] ∧
    (pressContinuousMode (pressSingleLetterMode
        ⟨true, true, true, [[1]], [[1]], true, ⟨"A", 3⟩, true, ["A"], false⟩)).isPredicting =
      true := by
  decide

/-- Claim C7 as amended: toggling between Continuous and SingleShot clears
the partially filled batch sample buffer and sets the collecting flag, but
leaves the consensus-tracker state, the rolling window and the in-flight
flag unchanged; the Word letters and the finalized flag are also left
unchanged. -/
theorem mode_switch_reset_amended :
    ∀ st : ModeSt,
      (pressSingleLetterMode st).sensorBuffer = [] ∧
      (pressSingleLetterMode st).isCollecting = false ∧
      (pressSingleLetterMode st).isContinuousMode = false ∧
      (pressSingleLetterMode st).stablePred = st.stablePred ∧
      (pressSingleLetterMode st).letterUsed = st.letterUsed ∧
      (pressSingleLetterMode st).rollingBuffer = st.rollingBuffer ∧
      (pressSingleLetterMode st).isPredicting = st.isPredicting ∧
      (pressSingleLetterMode st).detectedLetters = st.detectedLetters ∧
      (pressSingleLetterMode st).isWordFinalized = st.isWordFinalized ∧
      (pressContinuousMode st).sensorBuffer = [] ∧
      (pressContinuousMode st).isCollecting = true ∧
      (pressContinuousMode st).isContinuousMode = true ∧
      (pressContinuousMode st).stablePred = st.stablePred ∧
      (pressContinuousMode st).letterUsed = st.letterUsed ∧
      (pressContinuousMode st).rollingBuffer = st.rollingBuffer ∧
      (pressContinuousMode st).isPredicting = st.isPredicting ∧
      (pressContinuousMode st).detectedLetters = st.detectedLetters ∧
      (pressContinuousMode st).isWordFinalized = st.isWordFinalized :=
  fun _ => ⟨rfl, rfl, rfl, rfl, rfl, rfl, rfl, rfl, rfl, rfl, rfl, rfl, rfl, rfl, rfl, rfl, rfl, rfl⟩

/-- Claim C3: starting from an empty window, after any sequence of pushes
the rolling window holds exactly the most recent `min total WINDOW_SIZE`
samples in arrival order, so its length never exceeds 50. -/
theorem rollingWindow_fifo (samples : List Sample) :
    (samples.foldl pushWindow []).length = min samples.length WINDOW_SIZE ∧
    samples.foldl pushWindow [] = samples.drop (samples.length - WINDOW_SIZE) := by
  induction samples using List.reverseRecOn with
  | nil => simp
  | append_singleton l a ih =>
      obtain ⟨ihlen, ihval⟩ := ih
      have hws : WINDOW_SIZE = 50 := rfl
      rw [foldl_pushWindow_append, pushWindow_eq]
      by_cases hn : l.length < WINDOW_SIZE
      · have hcond : ¬WINDOW_SIZE < (l.foldl pushWindow []).length + 1 := by
          rw [ihlen]; omega
        have hdropzero : l.length - WINDOW_SIZE = 0 := by omega
        have hdropzero1 : (l ++ [a]).length - WINDOW_SIZE = 0 := by
          simp only [List.length_append, List.length_singleton]; omega
        rw [if_neg hcond, hdropzero1, List.drop_zero, ihval, hdropzero, List.drop_zero]
        refine ⟨?_, rfl⟩
        simp only [List.length_append, List.length_singleton, ihlen, hdropzero]
        omega
      · have hw : (l.foldl pushWindow []).length = WINDOW_SIZE := by rw [ihlen]; omega
        have hcond : WINDOW_SIZE < (l.foldl pushWindow []).length + 1 := by omega
        rw [if_pos hcond]
        constructor
        · rw [List.length_tail]
          simp only [List.length_append, List.length_singleton, hw]
          omega
        · rw [← List.drop_one, List.drop_append_of_le_length (by omega : 1 ≤ (l.foldl pushWindow []).length),
            ihval, List.drop_drop]
          have harith : l.length - WINDOW_SIZE + 1 = (l ++ [a]).length - WINDOW_SIZE := by
            simp only [List.length_append, List.length_singleton]; omega
          rw [harith,
            List.drop_append_of_le_length
              (by simp only [List.length_append, List.length_singleton]; omega)]

/-- Unfolding equation for `dispatchCount` on a non-empty stream. -/
theorem dispatchCount_cons (st : RollState) (s : Sample) (ss : List Sample) :
    dispatchCount st (s :: ss) =
      (if (handleSensorDataRolling st s).2 then 1 else 0) +
        dispatchCount (handleSensorDataRolling st s).1 ss := rfl

/-- Counting helper: a sample processed while the in-flight flag is set does
not dispatch and leaves the flag set. -/
theorem handleSensorDataRolling_of_inflight (st : RollState) (s : Sample)
    (h : st.isPredicting = true) :
    (handleSensorDataRolling st s).1.isPredicting = true ∧
    (handleSensorDataRolling st s).2 = false := by
  simp [handleSensorDataRolling, h]

/-- Counting helper: a dispatching step leaves the in-flight flag set. -/
theorem dispatch_sets_flag (st : RollState) (s : Sample)
    (h : (handleSensorDataRolling st s).2 = true) :
    (handleSensorDataRolling st s).1.isPredicting = true := by
  simp only [handleSensorDataRolling] at h ⊢
  by_cases hc : WINDOW_SIZE ≤ (pushWindow st.rollingBuffer s).length ∧
      st.isPredicting = false
  · simp [if_pos hc]
  · simp [if_neg hc] at h

/-- Counting helper: a dispatching step requires an idle in-flight flag. -/
theorem dispatch_only_when_idle (st : RollState) (s : Sample)
    (h : (handleSensorDataRolling st s).2 = true) : st.isPredicting = false := by
  simp only [handleSensorDataRolling] at h
  by_cases hc : WINDOW_SIZE ≤ (pushWindow st.rollingBuffer s).length ∧
      st.isPredicting = false
  · exact hc.2
  · simp [if_neg hc] at h

/-- Counting helper: no classification is dispatched while one is in flight. -/
theorem dispatchCount_of_inflight (st : RollState) (ss : List Sample)
    (h : st.isPredicting = true) : dispatchCount st ss = 0 := by
  induction ss generalizing st with
  | nil => rfl
  | cons s ss ih =>
      obtain ⟨hflag, hdisp⟩ := handleSensorDataRolling_of_inflight st s h
      rw [dispatchCount_cons, hdisp, ih _ hflag]
      simp

/-- Counting helper: a sample stream with no interleaved completion
dispatches at most one classification from any starting state. -/
theorem dispatchCount_le_one (st : RollState) (ss : List Sample) :
    dispatchCount st ss ≤ 1 := by
  induction ss generalizing st with
  | nil => simp [dispatchCount]
  | cons s ss ih =>
      rw [dispatchCount_cons]
      by_cases hdisp : (handleSensorDataRolling st s).2 = true
      · rw [hdisp, dispatchCount_of_inflight _ ss (dispatch_sets_flag st s hdisp)]
        simp
      · simp only [Bool.not_eq_true] at hdisp
        rw [hdisp]
        simpa using ih (handleSensorDataRolling st s).1

/-- Claim C1: in rolling-window mode a sample dispatches a classification
only when the in-flight flag is false, the flag is set at dispatch, every
completion path clears it, and while a classification is outstanding a whole
stream of further samples dispatches nothing; without a completion at most
one dispatch ever happens. -/
theorem at_most_one_inflight :
    (∀ (st : RollState) (s : Sample),
        (handleSensorDataRolling st s).2 = true → st.isPredicting = false) ∧
    (∀ (st : RollState) (s : Sample),
        (handleSensorDataRolling st s).2 = true →
          (handleSensorDataRolling st s).1.isPredicting = true) ∧
    (∀ (st : RollState) (ss : List Sample),
        st.isPredicting = true → dispatchCount st ss = 0) ∧
    (∀ (st : RollState) (ss : List Sample), dispatchCount st ss ≤ 1) ∧
    (∀ st : RollState, (rollingOnComplete st).isPredicting = false) := by
  exact ⟨dispatch_only_when_idle, dispatch_sets_flag, dispatchCount_of_inflight,
    dispatchCount_le_one, fun _ => rfl⟩

/-- Witness for C1: with a classification outstanding, one further sample
dispatches nothing. -/
theorem at_most_one_inflight_witness :
    dispatchCount ⟨[], true⟩ [[0, 0, 0, 0, 0]] = 0 :=
  at_most_one_inflight.2.2.1 ⟨[], true⟩ [[0, 0, 0, 0, 0]] rfl

/-- Claim C2: under confidences at or above the acceptance threshold, the
rolling-mode stabilizer commits a letter exactly when the same letter
reaches 4 consecutive predictions with an unconsumed streak, a differing
prediction resets the tracker to count 1 and un-consumes it, the
consumed-iff-streak-reached invariant is preserved, and the two example
streams commit exactly one A and exactly one B. -/
theorem consensus_stabilization :
    (∀ (st : AppSt) (p : Resp),
        st.isContinuousMode = true → st.quickDemoSlot = false →
        st.minConfidence ≤ p.confidence →
        (st.letterUsed = true ↔ STABLE_NEEDED ≤ st.stablePred.count) →
        (p.letter = st.stablePred.letter ∧ st.stablePred.count + 1 = STABLE_NEEDED →
            (makePrediction st (Except.ok p)).detectedLetters =
              (if st.isWordFinalized then [] else st.detectedLetters) ++ [p.letter] ∧
            (makePrediction st (Except.ok p)).letterUsed = true) ∧
        (¬(p.letter = st.stablePred.letter ∧ st.stablePred.count + 1 = STABLE_NEEDED) →
            (makePrediction st (Except.ok p)).detectedLetters = st.detectedLetters) ∧
        (p.letter ≠ st.stablePred.letter →
            (makePrediction st (Except.ok p)).stablePred = ⟨p.letter, 1⟩ ∧
            (makePrediction st (Except.ok p)).letterUsed = false) ∧
        ((makePrediction st (Except.ok p)).letterUsed = true ↔
            STABLE_NEEDED ≤ (makePrediction st (Except.ok p)).stablePred.count)) ∧
    (runPreds { initState with isContinuousMode := true }
        [⟨"A", 9 / 10, 0⟩, ⟨"A", 9 / 10, 0⟩, ⟨"A", 9 / 10, 0⟩, ⟨"A", 9 / 10, 0⟩,
         ⟨"B", 9 / 10, 0⟩]).detectedLetters = ["A"] ∧
    (runPreds { initState with isContinuousMode := true }
        [⟨"A", 9 / 10, 0⟩, ⟨"A", 9 / 10, 0⟩, ⟨"B", 9 / 10, 0⟩, ⟨"B", 9 / 10, 0⟩,
         ⟨"B", 9 / 10, 0⟩, ⟨"B", 9 / 10, 0⟩]).detectedLetters = ["B"] := by
  have hs4 : STABLE_NEEDED = 4 := rfl
  have hc1 : (3 : ℚ) / 5 ≤ 9 / 10 := by norm_num
  have hs1 : ("A" : String) ≠ "" := by decide
  have hs2 : ("B" : String) ≠ "A" := by decide
  refine ⟨?_,
    by simp [runPreds, makePrediction, initState, STABLE_NEEDED, hc1, hs1, hs2],
    by simp [runPreds, makePrediction, initState, STABLE_NEEDED, hc1, hs1, hs2]⟩
  intro st p hc hq hconf hinv
  refine ⟨?_, ?_, ?_, ?_⟩
  · rintro ⟨hsame, hcount⟩
    have hused : st.letterUsed = false := by
      cases hu : st.letterUsed
      · rfl
      · exfalso; have h4 := hinv.mp hu; omega
    have hcnt : STABLE_NEEDED ≤ st.stablePred.count + 1 := by omega
    constructor <;> simp [makePrediction, hc, hq, hsame, hcnt, hused, hconf]
  · intro hnot
    by_cases hsame : p.letter = st.stablePred.letter
    · have hcount : st.stablePred.count + 1 ≠ STABLE_NEEDED := fun h => hnot ⟨hsame, h⟩
      by_cases hlow : st.stablePred.count + 1 < STABLE_NEEDED
      · have hng : ¬(STABLE_NEEDED ≤ st.stablePred.count + 1 ∧ st.letterUsed = false
            ∧ st.minConfidence ≤ p.confidence) := by
          rintro ⟨h1, _, _⟩; omega
        simp [makePrediction, hc, hq, hsame, hng]
      · have hge : STABLE_NEEDED ≤ st.stablePred.count := by omega
        have hused : st.letterUsed = true := hinv.mpr hge
        have hng : ¬(STABLE_NEEDED ≤ st.stablePred.count + 1 ∧ st.letterUsed = false
            ∧ st.minConfidence ≤ p.confidence) := by
          rintro ⟨_, h2, _⟩; rw [hused] at h2; cases h2
        simp [makePrediction, hc, hq, hsame, hng]
    · simp [makePrediction, hc, hq, hsame]
  · intro hdiff
    constructor <;> simp [makePrediction, hc, hq, hdiff]
  · by_cases hsame : p.letter = st.stablePred.letter
    · by_cases hg : STABLE_NEEDED ≤ st.stablePred.count + 1 ∧ st.letterUsed = false
          ∧ st.minConfidence ≤ p.confidence
      · simp [makePrediction, hc, hq, hsame, hg]
      · simp only [makePrediction, hc, hq, hsame]
        simp [hg]
        constructor
        · intro hu; have h4 := hinv.mp hu; omega
        · intro hle
          by_contra hne
          have hused : st.letterUsed = false := by
            cases hu : st.letterUsed
            · rfl
            · exact absurd hu hne
          exact hg ⟨hle, hused, hconf⟩
    · simp [makePrediction, hc, hq, hsame, STABLE_NEEDED]

/-- Witness for C2: a fourth consecutive confident A on an unconsumed streak
of three commits exactly one A. -/
theorem consensus_stabilization_witness :
    (makePrediction
        { initState with isContinuousMode := true, stablePred := ⟨"A", 3⟩ }
        (Except.ok ⟨"A", 9 / 10, 0⟩)).detectedLetters = ["A"] ∧
    (makePrediction
        { initState with isContinuousMode := true, stablePred := ⟨"A", 3⟩ }
        (Except.ok ⟨"A", 9 / 10, 0⟩)).letterUsed = true := by
  have h := ((consensus_stabilization.1
      { initState with isContinuousMode := true, stablePred := ⟨"A", 3⟩ }
      ⟨"A", 9 / 10, 0⟩) rfl rfl (by norm_num [initState])
      (by simp [initState, STABLE_NEEDED])).1
      ⟨rfl, rfl⟩
  exact ⟨by simpa [initState] using h.1, h.2⟩

/-- Claim C4: the idle timer callback finalizes and speaks the word only
when the elapsed quiet time reaches the 2 second threshold, no demo driver
is active, the word is not yet finalized and the letter sequence is
non-empty; once finalized, a second firing changes nothing and speaks
nothing; when all conditions hold it finalizes and speaks the joined word. -/
theorem idle_finalization :
    (∀ (e : ℤ) (d : Bool) (ls : List String) (f : Bool),
        (idleTimerFire e d ls f).2 ≠ none →
          IDLE_THRESHOLD_MS ≤ e ∧ d = false ∧ f = false ∧ ls ≠ [] ∧
          idleTimerFire e d ls f = (true, some (String.join ls))) ∧
    (∀ (e : ℤ) (d : Bool) (ls : List String),
        (idleTimerFire e d ls false).1 = true →
          IDLE_THRESHOLD_MS ≤ e ∧ d = false ∧ ls ≠ []) ∧
    (∀ (e : ℤ) (d : Bool) (ls : List String), idleTimerFire e d ls true = (true, none)) ∧
    (∀ (e : ℤ) (d : Bool) (ls : List String),
        IDLE_THRESHOLD_MS ≤ e → d = false → 0 < (String.join ls).length →
        idleTimerFire e d ls false = (true, some (String.join ls))) := by
  have hfire : ∀ (e : ℤ) (d : Bool) (ls : List String) (f : Bool),
      idleTimerFire e d ls f =
        if IDLE_THRESHOLD_MS ≤ e ∧ d = false ∧ f = false then
          if 0 < (String.join ls).length then (true, some (String.join ls))
          else (f, none)
        else (f, none) := fun _ _ _ _ => rfl
  refine ⟨?_, ?_, ?_, ?_⟩
  · intro e d ls f h
    rw [hfire] at h ⊢
    split_ifs at h ⊢ with h1 h2
    · refine ⟨h1.1, h1.2.1, h1.2.2, ?_, rfl⟩
      intro hnil
      subst hnil
      exact absurd h2 (by decide)
    · simp at h
    · simp at h
  · intro e d ls h
    rw [hfire] at h
    split_ifs at h with h1 h2
    · refine ⟨h1.1, h1.2.1, ?_⟩
      intro hnil
      subst hnil
      exact absurd h2 (by decide)
  · intro e d ls
    simp [idleTimerFire]
  · intro e d ls h1 h2 h3
    rw [hfire, if_pos ⟨h1, h2, rfl⟩, if_pos h3]

/-- Witness for C4: after 2.5 s of quiet with no demo, letters A B finalize
once and the joined word is spoken. -/
theorem idle_finalization_witness :
    idleTimerFire 2500 false ["A", "B"] false = (true, some (String.join ["A", "B"])) :=
  idle_finalization.2.2.2 2500 false ["A", "B"] (by decide) rfl (by decide)

/-- Counterexample to claim C5: with QuickDemo active and a confidence of
one half, which lies in the unit interval but below the 0.6 acceptance
threshold, the predicted letter is not appended to the word. -/
theorem quickdemo_any_confidence_cex :
    (0 : ℚ) ≤ 1 / 2 ∧ (1 / 2 : ℚ) ≤ 1 ∧
    (makePrediction
        { initState with isContinuousMode := true, quickDemoSlot := true }
        (Except.ok ⟨"A", 1 / 2, 0⟩)).detectedLetters = [] := by
  exact ⟨by norm_num, by norm_num, by norm_num [makePrediction, initState]⟩

/-- Claim C5 as amended: in the current App variant with QuickDemo active, a
Prediction is committed immediately exactly when its confidence reaches the
acceptance threshold, with no consensus tracking; the legacy App variant
commits every Prediction regardless of confidence while the demo runs. -/
theorem quickdemo_commit_amended :
    (∀ (st : AppSt) (r : Resp),
        st.isContinuousMode = true → st.quickDemoSlot = true →
        (st.minConfidence ≤ r.confidence →
            (makePrediction st (Except.ok r)).detectedLetters =
              (if st.isWordFinalized then [] else st.detectedLetters) ++ [r.letter]) ∧
        (¬st.minConfidence ≤ r.confidence →
            (makePrediction st (Except.ok r)).detectedLetters = st.detectedLetters)) ∧
    (∀ (letters : List String) (conf minConf : ℚ) (letter : String),
        legacyCommitBranch letters true true conf minConf letter = letters ++ [letter]) := by
  refine ⟨?_, ?_⟩
  · intro st r hc hq
    constructor
    · intro hconf; simp [makePrediction, hc, hq, hconf]
    · intro hconf; simp [makePrediction, hc, hq, hconf]
  · intro letters conf minConf letter
    simp [legacyCommitBranch]

/-- Witness for C5 as amended: a confident demo prediction is appended. -/
theorem quickdemo_commit_amended_witness :
    (makePrediction
        { initState with isContinuousMode := true, quickDemoSlot := true }
        (Except.ok ⟨"A", 9 / 10, 0⟩)).detectedLetters = ["A"] := by
  have h := ((quickdemo_commit_amended.1
      { initState with isContinuousMode := true, quickDemoSlot := true }
      ⟨"A", 9 / 10, 0⟩) rfl rfl).1 (by norm_num [initState])
  simpa [initState] using h

/-- Counterexample to claim C6: with the demo callback slot occupied, a
classification failure does not invoke the callback and does not clear the
slot, so the callback is not invoked exactly once on every completion. -/
theorem driver_handshake_cex :
    ({ initState with quickDemoSlot := true, isContinuousMode := true } : AppSt).quickDemoSlot
      = true ∧
    (makePrediction { initState with quickDemoSlot := true, isContinuousMode := true }
        (Except.error "network error")).quickDemoInvoked = 0 ∧
    (makePrediction { initState with quickDemoSlot := true, isContinuousMode := true }
        (Except.error "network error")).quickDemoSlot = true :=
  ⟨rfl, rfl, rfl⟩

/-- Claim C6 as amended: when the demo callback slot is occupied, a
successful classification invokes the callback exactly once and clears the
slot, a failed classification invokes nothing and leaves the slot occupied,
and the 10 second driver-side safety timeout clears the slot itself. -/
theorem driver_handshake_amended :
    ∀ (st : AppSt) (r : Resp) (msg : String),
      st.quickDemoSlot = true →
      ((makePrediction st (Except.ok r)).quickDemoSlot = false ∧
        (makePrediction st (Except.ok r)).quickDemoInvoked = st.quickDemoInvoked + 1) ∧
      ((makePrediction st (Except.error msg)).quickDemoSlot = true ∧
        (makePrediction st (Except.error msg)).quickDemoInvoked = st.quickDemoInvoked) ∧
      (quickDemoTimeout st).quickDemoSlot = false := by
  intro st r msg hq
  refine ⟨⟨?_, ?_⟩, ⟨hq, rfl⟩, ?_⟩
  · simp [makePrediction, hq]
  · simp [makePrediction, hq]
    split_ifs <;> rfl
  · simp [quickDemoTimeout, hq]

/-- Witness for C6 as amended: a successful classification clears the
occupied slot and bumps the invocation count to one. -/
theorem driver_handshake_amended_witness :
    (makePrediction { initState with quickDemoSlot := true }
        (Except.ok ⟨"A", 1, 0⟩)).quickDemoSlot = false ∧
    (makePrediction { initState with quickDemoSlot := true }
        (Except.ok ⟨"A", 1, 0⟩)).quickDemoInvoked = 1 := by
  have h := driver_handshake_amended { initState with quickDemoSlot := true }
      ⟨"A", 1, 0⟩ "msg" rfl
  exact ⟨h.1.1, by simpa [initState] using h.1.2⟩

/-- Counterexample to claim C8: the completion handler that runs after a
classification failure clears the in-flight flag but leaves the full
50-sample rolling window in place, so the buffers are not reset. -/
theorem error_isolation_cex :
    (rollingOnComplete ⟨List.replicate 50 [0], true⟩).isPredicting = false ∧
    (rollingOnComplete ⟨List.replicate 50 [0], true⟩).rollingBuffer =
      List.replicate 50 [0] ∧
    List.replicate 50 ([0] : Sample) ≠ [] := by
  refine ⟨rfl, rfl, by decide⟩

/-- Claim C8 as amended: a classification failure leaves the word letters,
tracker and finalized flag untouched, records a user-visible error message,
clears the analyzing flag; the completion handler clears the in-flight flag
while retaining the rolling window; and a subsequent successful
classification still appends normally. -/
theorem error_isolation_amended :
    ∀ (st : AppSt) (msg : String) (r : Resp),
      (makePrediction st (Except.error msg)).detectedLetters = st.detectedLetters ∧
      (makePrediction st (Except.error msg)).stablePred = st.stablePred ∧
      (makePrediction st (Except.error msg)).letterUsed = st.letterUsed ∧
      (makePrediction st (Except.error msg)).isWordFinalized = st.isWordFinalized ∧
      (makePrediction st (Except.error msg)).predictionError = some msg ∧
      (makePrediction st (Except.error msg)).isAnalyzing = false ∧
      (∀ rs : RollState, (rollingOnComplete rs).isPredicting = false ∧
          (rollingOnComplete rs).rollingBuffer = rs.rollingBuffer) ∧
      (st.isContinuousMode = true → st.quickDemoSlot = false →
        r.letter = st.stablePred.letter →
        STABLE_NEEDED ≤ st.stablePred.count + 1 → st.letterUsed = false →
        st.minConfidence ≤ r.confidence →
        (makePrediction (makePrediction st (Except.error msg))
            (Except.ok r)).detectedLetters =
          (if st.isWordFinalized then [] else st.detectedLetters) ++ [r.letter]) := by
  intro st msg r
  refine ⟨rfl, rfl, rfl, rfl, rfl, rfl, fun _ => ⟨rfl, rfl⟩, ?_⟩
  intro hc hq hsame hcnt hused hconf
  simp [makePrediction, hc, hq, hsame, hcnt, hused, hconf]

/-- Witness for C8 as amended: after a failure with the word at A B, a
subsequent confident fourth C appends C, giving A B C. -/
theorem error_isolation_amended_witness :
    (makePrediction (makePrediction
        { initState with
            isContinuousMode := true
            detectedLetters := ["A", "B"]
            stablePred := ⟨"C", 3⟩ }
        (Except.error "boom")) (Except.ok ⟨"C", 9 / 10, 0⟩)).detectedLetters =
      ["A", "B", "C"] := by
  have h := (error_isolation_amended
      { initState with
          isContinuousMode := true
          detectedLetters := ["A", "B"]
          stablePred := ⟨"C", 3⟩ } "boom" ⟨"C", 9 / 10, 0⟩).2.2.2.2.2.2.2
      rfl rfl rfl (by decide) rfl (by norm_num [initState])
  simpa [initState] using h
